import Mathlib

/-!
Verification of the dropclone backend (src/backend/server.js, AWS SDK v3, and
src/backend/server-1.js, AWS SDK v2) against its natural-language specification.

The two servers are Express applications whose handlers are single calls (or
two sequential calls) against DynamoDB (file-metadata table keyed by
(userId, fileId)), S3 (object store), and Cognito (token resolution).  We give
a shallow embedding:

* JSON response bodies are `JVal` values; a response is a status plus a body.
* A DynamoDB item is a schemaless record; every non-key attribute is optional
  (`Item`).  `ddbPut` replaces the item with the same key, `ddbUpdate` is an
  upsert (UpdateItem creates the item when absent, as DynamoDB does),
  `ddbQueryDesc`/`ddbQueryAsc` return the caller's partition ordered by the
  sort key `fileId` (ScanIndexForward false/true).  String sort keys are
  ordered lexicographically by code point (`strLeB`), modelling DynamoDB's
  UTF-8 byte order.
* The S3 bucket is the list of stored object keys; `listObjectVersions` with
  an absent prefix lists the whole bucket (Prefix is an optional parameter).
  Presigning and object deletion require the `Key` member: when the handler
  passes an undefined key (a record without `s3Key`), the SDK rejects the
  command before any network call; this is modelled as a thrown error whose
  message is the oracle `Ctx.sdkMissingKeyMsg`, caught by the handler's
  `catch` and turned into a 500 response, exactly as in the source.
* All other external behaviour (Cognito results, presigned URLs, clocks,
  uuidv4 outputs, the outcome of the upload's DynamoDB put) enters through
  the per-request oracle `Ctx`; JavaScript `undefined` is `Option.none`,
  `x || d` is `jsOr`, template interpolation of `undefined` is `jsStr`.
-/

/-- JSON-like values appearing in response bodies.  Object fields are an
ordered association list; `res.json` drops fields whose value is
`undefined`, so absent optional fields are simply omitted from the list. -/
inductive JVal where
  | str (s : String)
  | num (n : Nat)
  | bool (b : Bool)
  | arr (elems : List JVal)
  | obj (fields : List (String × JVal))

/-- An HTTP response: status code and JSON body. -/
structure Resp where
  status : Nat
  body : JVal

/-- JavaScript `a || d` for an optional string (`undefined` and `""` are
falsy). -/
def jsOr (a : Option String) (d : String) : String :=
  match a with
  | none => d
  | some s => if s = "" then d else s

/-- JavaScript truthiness of an optional string. -/
def jsTruthy (a : Option String) : Bool :=
  match a with
  | none => false
  | some s => s ≠ ""

/-- JavaScript template interpolation of a possibly-undefined string. -/
def jsStr (a : Option String) : String :=
  match a with
  | none => "undefined"
  | some s => s

/-- A DynamoDB item of the file-metadata table.  The table key is
(`userId`, `fileId`); DynamoDB is schemaless, so every other attribute may be
absent.  `shareUrl` is never written by any route (unshare only REMOVEs it)
but is kept because the unshare update names it. -/
structure Item where
  userId : String
  fileId : String
  fileName : Option String := none
  fileSize : Option Nat := none
  s3Key : Option String := none
  s3Location : Option String := none
  versionId : Option String := none
  mimeType : Option String := none
  uploadDate : Option String := none
  isPublic : Option Bool := none
  downloadCount : Option Nat := none
  lastShared : Option String := none
  shareExpiry : Option String := none
  shareUrl : Option String := none
deriving DecidableEq

/-- Server-side persistent state: the metadata table and the set of stored
object keys (the bucket). -/
structure St where
  table : List Item
  bucket : List String
deriving DecidableEq

/-- Key condition `userId = :u AND fileId = :f`. -/
def keyMatch (u f : String) (r : Item) : Bool :=
  r.userId == u && r.fileId == f

/-- DynamoDB GetItem. -/
def ddbGet (t : List Item) (u f : String) : Option Item :=
  t.find? (keyMatch u f)

/-- DynamoDB PutItem: unconditionally replaces the item with the same key. -/
def ddbPut (t : List Item) (it : Item) : List Item :=
  it :: t.filter (fun r => !(keyMatch it.userId it.fileId r))

/-- DynamoDB DeleteItem. -/
def ddbDelete (t : List Item) (u f : String) : List Item :=
  t.filter (fun r => !(keyMatch u f r))

/-- DynamoDB UpdateItem: an upsert.  The update expression `upd` receives the
current item (or `none` when absent) and produces the stored item. -/
def ddbUpdate (t : List Item) (u f : String) (upd : Option Item → Item) : List Item :=
  ddbPut t (upd (ddbGet t u f))

/-- Lexicographic code-point order on strings' character lists, modelling
DynamoDB's UTF-8 byte order of string sort keys. -/
def strLeB : List Char → List Char → Bool
  | [], _ => true
  | _ :: _, [] => false
  | a :: as, b :: bs =>
    if a.toNat < b.toNat then true
    else if b.toNat < a.toNat then false
    else strLeB as bs

/-- Insertion step for descending fileId order. -/
def insertDesc (x : Item) : List Item → List Item
  | [] => [x]
  | y :: ys => if strLeB y.fileId.data x.fileId.data then x :: y :: ys else y :: insertDesc x ys

/-- Sort by fileId descending (ScanIndexForward: false). -/
def sortDesc : List Item → List Item
  | [] => []
  | x :: xs => insertDesc x (sortDesc xs)

/-- Insertion step for ascending fileId order. -/
def insertAsc (x : Item) : List Item → List Item
  | [] => [x]
  | y :: ys => if strLeB x.fileId.data y.fileId.data then x :: y :: ys else y :: insertAsc x ys

/-- Sort by fileId ascending (ScanIndexForward default). -/
def sortAsc : List Item → List Item
  | [] => []
  | x :: xs => insertAsc x (sortAsc xs)

/-- The caller's partition of the table. -/
def ownOf (t : List Item) (uid : String) : List Item :=
  t.filter (fun r => r.userId == uid)

/-- Everyone else's records. -/
def othersOf (t : List Item) (uid : String) : List Item :=
  t.filter (fun r => !(r.userId == uid))

/-- DynamoDB Query `userId = :userId` with ScanIndexForward: false
(the list-files route): the partition ordered by sort key descending. -/
def ddbQueryDesc (t : List Item) (uid : String) : List Item :=
  sortDesc (ownOf t uid)

/-- DynamoDB Query `userId = :userId` with default ordering (the stats
route): the partition ordered by sort key ascending. -/
def ddbQueryAsc (t : List Item) (uid : String) : List Item :=
  sortAsc (ownOf t uid)

/-- Is `p` a string prefix of `k` (S3 key-prefix semantics)? -/
def strPfx (p k : String) : Bool :=
  p.data.isPrefixOf k.data

/-- S3 ListObjectVersions: with a prefix, the stored keys extending it; with
the prefix member absent (`undefined`), the whole bucket. -/
def s3ListVersions (bucket : List String) (pfx : Option String) : List String :=
  match pfx with
  | none => bucket
  | some p => bucket.filter (fun k => strPfx p k)

/-- S3 DeleteObject. -/
def s3Delete (bucket : List String) (key : String) : List String :=
  bucket.filter (fun k => !(k == key))

/-- Per-request oracle: the behaviour of the external services and clocks
during one request.  Both servers are run against the same oracle when
compared ("identical behaviour of the external services"). -/
structure Ctx where
  /-- Cognito GetUser: access token to Username. -/
  tokenUser : String → Option String
  /-- Cognito SignUp outcome for (email, password, name). -/
  signUpRes : Option String → Option String → Option String → Except String Unit
  /-- Cognito InitiateAuth outcome: token, refresh token, expiry; the error
  payload is the thrown error's possibly-undefined `message`. -/
  loginRes : Option String → Option String → Except (Option String) (String × String × Nat)
  /-- Cognito ConfirmSignUp outcome for (email, code). -/
  confirmRes : Option String → Option String → Except String Unit
  /-- Cognito ResendConfirmationCode outcome. -/
  resendRes : Option String → Except String Unit
  /-- new Date().toISOString() at this request. -/
  nowIso : String
  /-- new Date(Date.now() + delta).toISOString(), as a function of delta ms. -/
  isoOfMsPlus : Nat → String
  /-- process.uptime() (coarsened to seconds). -/
  uptime : Nat
  /-- process.env.NODE_ENV. -/
  nodeEnv : Option String
  /-- getSignedUrl for (key, response-content-disposition, expiresIn). -/
  sign : String → Option String → Nat → String
  /-- Message of the SDK error thrown when a command is built with its
  required Key member undefined. -/
  sdkMissingKeyMsg : String
  /-- Outcome of the upload handler's DynamoDB put: `some msg` models the
  call rejecting with an error whose message is `msg`. -/
  putErr : Option String
  /-- uuidv4() drawn in the multer-s3 key callback. -/
  multerId : String
  /-- uuidv4() drawn in the upload handler for the metadata record. -/
  metaId : String
  /-- req.file.location reported by multer-s3. -/
  s3Loc : String
  /-- req.file.versionId reported by multer-s3 (absent without bucket
  versioning). -/
  s3Ver : Option String

/-- The uploaded multipart file as multer presents it. -/
structure UpFile where
  originalname : String
  size : Nat
  mimetype : String
deriving DecidableEq

/-- Emit a JSON field only when the value is present (`res.json` drops
`undefined` members). -/
def optF (k : String) (v : Option JVal) : List (String × JVal) :=
  match v with
  | some j => [(k, j)]
  | none => []

/-- Serialization of a metadata item into a response body. -/
def itemToJson (it : Item) : JVal :=
  JVal.obj ([("userId", JVal.str it.userId), ("fileId", JVal.str it.fileId)]
    ++ optF "fileName" (it.fileName.map JVal.str)
    ++ optF "fileSize" (it.fileSize.map JVal.num)
    ++ optF "s3Key" (it.s3Key.map JVal.str)
    ++ optF "s3Location" (it.s3Location.map JVal.str)
    ++ optF "versionId" (it.versionId.map JVal.str)
    ++ optF "mimeType" (it.mimeType.map JVal.str)
    ++ optF "uploadDate" (it.uploadDate.map JVal.str)
    ++ optF "isPublic" (it.isPublic.map JVal.bool)
    ++ optF "downloadCount" (it.downloadCount.map JVal.num)
    ++ optF "lastShared" (it.lastShared.map JVal.str)
    ++ optF "shareExpiry" (it.shareExpiry.map JVal.str)
    ++ optF "shareUrl" (it.shareUrl.map JVal.str))

/-- The 404 body every file route returns when the addressed record is
absent. -/
def notFoundResp : Resp :=
  ⟨404, JVal.obj [("error", JVal.str "File not found")]⟩

/-- formatBytes from the source, with JavaScript floats modelled by exact
rationals rounded to the default 2 decimals (parseFloat then trims trailing
zeros); an index past the sizes array renders as "undefined" as in JS. -/
def formatBytes (bytes : Nat) : String :=
  if bytes = 0 then "0 Bytes"
  else
    let k := 1024
    let sizes := ["Bytes", "KB", "MB", "GB", "TB"]
    let i := Nat.log k bytes
    let scaled := (bytes * 100 + k ^ i / 2) / k ^ i
    let whole := scaled / 100
    let frac := scaled % 100
    let fracStr :=
      if frac = 0 then ""
      else if frac % 10 = 0 then "." ++ toString (frac / 10)
      else if frac < 10 then ".0" ++ toString frac
      else "." ++ toString frac
    toString whole ++ fracStr ++ " " ++ sizes.getD i "undefined"

/-- POST /api/files/upload (after authentication): multer-s3 stores the
object under `userId/<uuid>-<originalname>`, then the handler writes the
metadata record under an independently drawn uuid. -/
def uploadRoute (uid : String) (ctx : Ctx) (f : Option UpFile) (st : St) : Resp × St :=
  match f with
  | none => (⟨400, JVal.obj [("error", JVal.str "No file uploaded")]⟩, st)
  | some file =>
    let key := uid ++ "/" ++ ctx.multerId ++ "-" ++ file.originalname
    let st1 : St := { st with bucket := key :: st.bucket }
    let fileData : Item :=
      { userId := uid
        fileId := ctx.metaId
        fileName := some file.originalname
        fileSize := some file.size
        s3Key := some key
        s3Location := some ctx.s3Loc
        versionId := ctx.s3Ver
        mimeType := some file.mimetype
        uploadDate := some ctx.nowIso
        isPublic := some false
        downloadCount := some 0 }
    match ctx.putErr with
    | some msg => (⟨500, JVal.obj [("error", JVal.str msg)]⟩, st1)
    | none =>
      (⟨200, JVal.obj [("message", JVal.str "File uploaded successfully"),
        ("file", itemToJson fileData)]⟩,
       { st1 with table := ddbPut st1.table fileData })

/-- GET /api/files: the caller's records, newest first per the source
comment, realized as a Query with ScanIndexForward: false. -/
def listRoute (uid : String) (st : St) : Resp × St :=
  let items := ddbQueryDesc st.table uid
  (⟨200, JVal.obj [("files", JVal.arr (items.map itemToJson)),
    ("count", JVal.num items.length)]⟩, st)

/-- GET /api/files/:fileId. -/
def getRoute (uid fid : String) (st : St) : Resp × St :=
  match ddbGet st.table uid fid with
  | none => (notFoundResp, st)
  | some it => (⟨200, JVal.obj [("file", itemToJson it)]⟩, st)

/-- Update expression of the download route:
`SET downloadCount = if_not_exists(downloadCount, :zero) + :inc`. -/
def applyDownloadInc (uid fid : String) (old : Option Item) : Item :=
  match old with
  | some r => { r with downloadCount := some (r.downloadCount.getD 0 + 1) }
  | none => { userId := uid, fileId := fid, downloadCount := some 1 }

/-- GET /api/files/download/:fileId: presign a 3600s GetObject URL for the
record's key, then increment downloadCount. -/
def downloadRoute (uid fid : String) (ctx : Ctx) (st : St) : Resp × St :=
  match ddbGet st.table uid fid with
  | none => (notFoundResp, st)
  | some it =>
    match it.s3Key with
    | none => (⟨500, JVal.obj [("error", JVal.str ctx.sdkMissingKeyMsg)]⟩, st)
    | some key =>
      let url := ctx.sign key
        (some ("attachment; filename=\"" ++ jsStr it.fileName ++ "\"")) 3600
      let table1 := ddbUpdate st.table uid fid (applyDownloadInc uid fid)
      (⟨200, JVal.obj ([("downloadUrl", JVal.str url)]
        ++ optF "fileName" (it.fileName.map JVal.str)
        ++ [("expiresIn", JVal.num 3600)])⟩,
       { st with table := table1 })

/-- GET /api/files/:fileId/versions: ListObjectVersions with the record's
key as prefix (the Prefix member is optional and simply absent when the
record has no s3Key). -/
def versionsRoute (uid fid : String) (st : St) : Resp × St :=
  match ddbGet st.table uid fid with
  | none => (notFoundResp, st)
  | some it =>
    let vs := s3ListVersions st.bucket it.s3Key
    (⟨200, JVal.obj ([("versions", JVal.arr (vs.map JVal.str))]
      ++ optF "currentVersion" (it.versionId.map JVal.str))⟩, st)

/-- DELETE /api/files/:fileId: delete the object, then the record. -/
def deleteRoute (uid fid : String) (ctx : Ctx) (st : St) : Resp × St :=
  match ddbGet st.table uid fid with
  | none => (notFoundResp, st)
  | some it =>
    match it.s3Key with
    | none => (⟨500, JVal.obj [("error", JVal.str ctx.sdkMissingKeyMsg)]⟩, st)
    | some key =>
      let st1 : St := { st with bucket := s3Delete st.bucket key }
      (⟨200, JVal.obj [("message", JVal.str "File deleted successfully")]⟩,
       { st1 with table := ddbDelete st1.table uid fid })

/-- Update expression of the share route:
`SET isPublic = :isPublic, lastShared = :now, shareExpiry = :expiry`. -/
def applyShare (uid fid now expiry : String) (old : Option Item) : Item :=
  match old with
  | some r => { r with
      isPublic := some true
      lastShared := some now
      shareExpiry := some expiry }
  | none => { userId := uid
              fileId := fid
              isPublic := some true
              lastShared := some now
              shareExpiry := some expiry }

/-- POST /api/files/share/:fileId: presign a URL with the caller-chosen ttl
(default 86400s), then record the share fields. -/
def shareRoute (uid fid : String) (expIn : Option Nat) (ctx : Ctx) (st : St) : Resp × St :=
  let expiresIn := expIn.getD 86400
  match ddbGet st.table uid fid with
  | none => (notFoundResp, st)
  | some it =>
    match it.s3Key with
    | none => (⟨500, JVal.obj [("error", JVal.str ctx.sdkMissingKeyMsg)]⟩, st)
    | some key =>
      let shareUrl := ctx.sign key none expiresIn
      let expiryDate := ctx.isoOfMsPlus (expiresIn * 1000)
      let table1 := ddbUpdate st.table uid fid (applyShare uid fid ctx.nowIso expiryDate)
      (⟨200, JVal.obj [("shareUrl", JVal.str shareUrl),
        ("expiresAt", JVal.str expiryDate), ("expiresIn", JVal.num expiresIn)]⟩,
       { st with table := table1 })

/-- Update expression of the unshare route:
`SET isPublic = :isPublic REMOVE shareUrl, shareExpiry`.  Note that
`lastShared` is not touched. -/
def applyUnshare (uid fid : String) (old : Option Item) : Item :=
  match old with
  | some r => { r with isPublic := some false, shareUrl := none, shareExpiry := none }
  | none => { userId := uid, fileId := fid, isPublic := some false }

/-- POST /api/files/unshare/:fileId: a single unconditional UpdateItem (an
upsert); there is no existence check. -/
def unshareRoute (uid fid : String) (st : St) : Resp × St :=
  (⟨200, JVal.obj [("message", JVal.str "Share link revoked successfully")]⟩,
   { st with table := ddbUpdate st.table uid fid (applyUnshare uid fid) })

/-- GET /api/stats: Query the caller's partition (default ordering) and
aggregate `reduce((sum, file) => sum + (file.fileSize || 0), 0)`. -/
def statsRoute (uid : String) (st : St) : Resp × St :=
  let items := ddbQueryAsc st.table uid
  let totalSize := items.foldl (fun sum file => sum + file.fileSize.getD 0) 0
  let totalFiles := items.length
  (⟨200, JVal.obj [("totalFiles", JVal.num totalFiles),
    ("totalSize", JVal.num totalSize),
    ("totalSizeFormatted", JVal.str (formatBytes totalSize))]⟩, st)

/-- The authenticated file-management and stats requests. -/
inductive FileReq where
  | upload (f : Option UpFile)
  | listFiles
  | getOne (fid : String)
  | download (fid : String)
  | versions (fid : String)
  | delFile (fid : String)
  | share (fid : String) (expIn : Option Nat)
  | unshare (fid : String)
  | stats
deriving DecidableEq

/-- Dispatch of an authenticated request to its handler (server.js). -/
def handleFile (uid : String) (ctx : Ctx) (rq : FileReq) (st : St) : Resp × St :=
  match rq with
  | FileReq.upload f => uploadRoute uid ctx f st
  | FileReq.listFiles => listRoute uid st
  | FileReq.getOne fid => getRoute uid fid st
  | FileReq.download fid => downloadRoute uid fid ctx st
  | FileReq.versions fid => versionsRoute uid fid st
  | FileReq.delFile fid => deleteRoute uid fid ctx st
  | FileReq.share fid expIn => shareRoute uid fid expIn ctx st
  | FileReq.unshare fid => unshareRoute uid fid st
  | FileReq.stats => statsRoute uid st

/-- HTTP methods appearing in the claims. -/
inductive Method where
  | get
  | post
  | put
  | del
deriving DecidableEq

/-- Which registered Express route (if any) a (method, path) pair hits.
Arms are ordered as the routes are registered in server.js; a `:param`
segment matches exactly one path segment. -/
inductive Matched where
  | register
  | login
  | verify
  | resend
  | upload
  | listFiles
  | getFile (fid : String)
  | download (fid : String)
  | versions (fid : String)
  | delFile (fid : String)
  | share (fid : String)
  | unshare (fid : String)
  | health
  | stats
  | noRoute
deriving DecidableEq

/-- Express route matching over the path's segments, in registration order.
Note GET /api/files/:fileId is registered before the download route, so a
three-segment GET such as /api/files/download hits the get-one route; the
four-segment GET /api/files/download/versions hits the download route, which
is registered before the versions route. -/
def matchRoute : Method → List String → Matched
  | Method.post, ["api", "auth", "register"] => Matched.register
  | Method.post, ["api", "auth", "login"] => Matched.login
  | Method.post, ["api", "auth", "verify"] => Matched.verify
  | Method.post, ["api", "auth", "resend-verification"] => Matched.resend
  | Method.post, ["api", "files", "upload"] => Matched.upload
  | Method.get, ["api", "files"] => Matched.listFiles
  | Method.get, ["api", "files", fid] => Matched.getFile fid
  | Method.get, ["api", "files", "download", fid] => Matched.download fid
  | Method.get, ["api", "files", fid, "versions"] => Matched.versions fid
  | Method.del, ["api", "files", fid] => Matched.delFile fid
  | Method.post, ["api", "files", "share", fid] => Matched.share fid
  | Method.post, ["api", "files", "unshare", fid] => Matched.unshare fid
  | Method.get, ["api", "health"] => Matched.health
  | Method.get, ["api", "stats"] => Matched.stats
  | _, _ => Matched.noRoute

/-- The routes guarded by authenticateToken that live under /api/files. -/
def isFilesMatch : Matched → Bool
  | Matched.upload => true
  | Matched.listFiles => true
  | Matched.getFile _ => true
  | Matched.download _ => true
  | Matched.versions _ => true
  | Matched.delFile _ => true
  | Matched.share _ => true
  | Matched.unshare _ => true
  | _ => false

/-- `req.headers.authorization?.split(' ')[1]`, with JavaScript truthiness:
a missing header, a header without a second word, or an empty second word
all leave no token. -/
def tokenOf (authHeader : Option String) : Option String :=
  match authHeader with
  | none => none
  | some h =>
    match (h.splitOn " ").get? 1 with
    | none => none
    | some t => if t = "" then none else some t

/-- The authenticateToken middleware: 401 without a token, 401 when Cognito
rejects it, otherwise run the handler with the resolved Username. -/
def authenticateToken (ctx : Ctx) (authHeader : Option String) (st : St)
    (handler : String → Resp × St) : Resp × St :=
  match tokenOf authHeader with
  | none => (⟨401, JVal.obj [("error", JVal.str "No token provided")]⟩, st)
  | some tok =>
    match ctx.tokenUser tok with
    | none => (⟨401, JVal.obj [("error", JVal.str "Invalid token")]⟩, st)
    | some uid => handler uid

/-- The request body fields the routes read. -/
structure ReqBody where
  email : Option String := none
  password : Option String := none
  name : Option String := none
  code : Option String := none
  expiresIn : Option Nat := none
deriving DecidableEq

/-- POST /api/auth/register (server.js). -/
def registerRoute (ctx : Ctx) (body : ReqBody) : Resp :=
  match ctx.signUpRes body.email body.password body.name with
  | Except.ok _ => ⟨200, JVal.obj [("message",
      JVal.str "User registered successfully. Please check your email for verification.")]⟩
  | Except.error m => ⟨400, JVal.obj [("error", JVal.str m)]⟩

/-- POST /api/auth/login (server.js, SDK v3): the failure body uses
`error.message || 'Invalid credentials'`. -/
def loginRoute (ctx : Ctx) (body : ReqBody) : Resp :=
  match ctx.loginRes body.email body.password with
  | Except.ok r => ⟨200, JVal.obj [("token", JVal.str r.1),
      ("refreshToken", JVal.str r.2.1), ("expiresIn", JVal.num r.2.2)]⟩
  | Except.error m => ⟨401, JVal.obj [("error", JVal.str (jsOr m "Invalid credentials"))]⟩

/-- POST /api/auth/verify (server.js). -/
def verifyRoute (ctx : Ctx) (body : ReqBody) : Resp :=
  match ctx.confirmRes body.email body.code with
  | Except.ok _ => ⟨200, JVal.obj [("message", JVal.str "Email verified successfully")]⟩
  | Except.error m => ⟨400, JVal.obj [("error", JVal.str m)]⟩

/-- POST /api/auth/resend-verification (server.js). -/
def resendRoute (ctx : Ctx) (body : ReqBody) : Resp :=
  if !(jsTruthy body.email) then
    ⟨400, JVal.obj [("error", JVal.str "Email is required")]⟩
  else
    match ctx.resendRes body.email with
    | Except.ok _ => ⟨200, JVal.obj [("message",
        JVal.str "Verification code resent successfully. Please check your email.")]⟩
    | Except.error m => ⟨400, JVal.obj [("error", JVal.str m)]⟩

/-- GET /api/health (server.js, SDK v3): includes sdkVersion. -/
def healthRoute (ctx : Ctx) : Resp :=
  ⟨200, JVal.obj [("status", JVal.str "OK"),
    ("timestamp", JVal.str ctx.nowIso),
    ("uptime", JVal.num ctx.uptime),
    ("environment", JVal.str (jsOr ctx.nodeEnv "development")),
    ("sdkVersion", JVal.str "v3")]⟩

/-- The app.use 404 fallthrough. -/
def routeNotFoundResp : Resp :=
  ⟨404, JVal.obj [("error", JVal.str "Route not found")]⟩

/-- The global Express error handler: a generic message, with the raw error
message attached only when NODE_ENV === 'development' (an undefined member
is dropped from the JSON body). -/
def globalErrorResp (nodeEnv : Option String) (errMsg : String) : Resp :=
  ⟨500, JVal.obj ([("error", JVal.str "Internal server error")]
    ++ (if nodeEnv = some "development" then [("message", JVal.str errMsg)] else []))⟩

/-- The whole server.js application: route matching, then the per-route
middleware chain and handler. -/
def appV3 (ctx : Ctx) (m : Method) (segs : List String) (authHeader : Option String)
    (body : ReqBody) (file : Option UpFile) (st : St) : Resp × St :=
  match matchRoute m segs with
  | Matched.register => (registerRoute ctx body, st)
  | Matched.login => (loginRoute ctx body, st)
  | Matched.verify => (verifyRoute ctx body, st)
  | Matched.resend => (resendRoute ctx body, st)
  | Matched.upload => authenticateToken ctx authHeader st (fun uid => uploadRoute uid ctx file st)
  | Matched.listFiles => authenticateToken ctx authHeader st (fun uid => listRoute uid st)
  | Matched.getFile fid => authenticateToken ctx authHeader st (fun uid => getRoute uid fid st)
  | Matched.download fid => authenticateToken ctx authHeader st (fun uid => downloadRoute uid fid ctx st)
  | Matched.versions fid => authenticateToken ctx authHeader st (fun uid => versionsRoute uid fid st)
  | Matched.delFile fid => authenticateToken ctx authHeader st (fun uid => deleteRoute uid fid ctx st)
  | Matched.share fid => authenticateToken ctx authHeader st (fun uid => shareRoute uid fid body.expiresIn ctx st)
  | Matched.unshare fid => authenticateToken ctx authHeader st (fun uid => unshareRoute uid fid st)
  | Matched.health => (healthRoute ctx, st)
  | Matched.stats => authenticateToken ctx authHeader st (fun uid => statsRoute uid st)
  | Matched.noRoute => (routeNotFoundResp, st)

/-- POST /api/files/upload from server-1.js (SDK v2); the handler logic is
line-identical to server.js. -/
def uploadRouteV2 (uid : String) (ctx : Ctx) (f : Option UpFile) (st : St) : Resp × St :=
  match f with
  | none => (⟨400, JVal.obj [("error", JVal.str "No file uploaded")]⟩, st)
  | some file =>
    let key := uid ++ "/" ++ ctx.multerId ++ "-" ++ file.originalname
    let st1 : St := { st with bucket := key :: st.bucket }
    let fileData : Item :=
      { userId := uid
        fileId := ctx.metaId
        fileName := some file.originalname
        fileSize := some file.size
        s3Key := some key
        s3Location := some ctx.s3Loc
        versionId := ctx.s3Ver
        mimeType := some file.mimetype
        uploadDate := some ctx.nowIso
        isPublic := some false
        downloadCount := some 0 }
    match ctx.putErr with
    | some msg => (⟨500, JVal.obj [("error", JVal.str msg)]⟩, st1)
    | none =>
      (⟨200, JVal.obj [("message", JVal.str "File uploaded successfully"),
        ("file", itemToJson fileData)]⟩,
       { st1 with table := ddbPut st1.table fileData })

/-- GET /api/files from server-1.js. -/
def listRouteV2 (uid : String) (st : St) : Resp × St :=
  let items := ddbQueryDesc st.table uid
  (⟨200, JVal.obj [("files", JVal.arr (items.map itemToJson)),
    ("count", JVal.num items.length)]⟩, st)

/-- GET /api/files/:fileId from server-1.js. -/
def getRouteV2 (uid fid : String) (st : St) : Resp × St :=
  match ddbGet st.table uid fid with
  | none => (notFoundResp, st)
  | some it => (⟨200, JVal.obj [("file", itemToJson it)]⟩, st)

/-- GET /api/files/download/:fileId from server-1.js. -/
def downloadRouteV2 (uid fid : String) (ctx : Ctx) (st : St) : Resp × St :=
  match ddbGet st.table uid fid with
  | none => (notFoundResp, st)
  | some it =>
    match it.s3Key with
    | none => (⟨500, JVal.obj [("error", JVal.str ctx.sdkMissingKeyMsg)]⟩, st)
    | some key =>
      let url := ctx.sign key
        (some ("attachment; filename=\"" ++ jsStr it.fileName ++ "\"")) 3600
      let table1 := ddbUpdate st.table uid fid (applyDownloadInc uid fid)
      (⟨200, JVal.obj ([("downloadUrl", JVal.str url)]
        ++ optF "fileName" (it.fileName.map JVal.str)
        ++ [("expiresIn", JVal.num 3600)])⟩,
       { st with table := table1 })

/-- GET /api/files/:fileId/versions from server-1.js. -/
def versionsRouteV2 (uid fid : String) (st : St) : Resp × St :=
  match ddbGet st.table uid fid with
  | none => (notFoundResp, st)
  | some it =>
    let vs := s3ListVersions st.bucket it.s3Key
    (⟨200, JVal.obj ([("versions", JVal.arr (vs.map JVal.str))]
      ++ optF "currentVersion" (it.versionId.map JVal.str))⟩, st)

/-- DELETE /api/files/:fileId from server-1.js. -/
def deleteRouteV2 (uid fid : String) (ctx : Ctx) (st : St) : Resp × St :=
  match ddbGet st.table uid fid with
  | none => (notFoundResp, st)
  | some it =>
    match it.s3Key with
    | none => (⟨500, JVal.obj [("error", JVal.str ctx.sdkMissingKeyMsg)]⟩, st)
    | some key =>
      let st1 : St := { st with bucket := s3Delete st.bucket key }
      (⟨200, JVal.obj [("message", JVal.str "File deleted successfully")]⟩,
       { st1 with table := ddbDelete st1.table uid fid })

/-- POST /api/files/share/:fileId from server-1.js. -/
def shareRouteV2 (uid fid : String) (expIn : Option Nat) (ctx : Ctx) (st : St) : Resp × St :=
  let expiresIn := expIn.getD 86400
  match ddbGet st.table uid fid with
  | none => (notFoundResp, st)
  | some it =>
    match it.s3Key with
    | none => (⟨500, JVal.obj [("error", JVal.str ctx.sdkMissingKeyMsg)]⟩, st)
    | some key =>
      let shareUrl := ctx.sign key none expiresIn
      let expiryDate := ctx.isoOfMsPlus (expiresIn * 1000)
      let table1 := ddbUpdate st.table uid fid (applyShare uid fid ctx.nowIso expiryDate)
      (⟨200, JVal.obj [("shareUrl", JVal.str shareUrl),
        ("expiresAt", JVal.str expiryDate), ("expiresIn", JVal.num expiresIn)]⟩,
       { st with table := table1 })

/-- POST /api/files/unshare/:fileId from server-1.js. -/
def unshareRouteV2 (uid fid : String) (st : St) : Resp × St :=
  (⟨200, JVal.obj [("message", JVal.str "Share link revoked successfully")]⟩,
   { st with table := ddbUpdate st.table uid fid (applyUnshare uid fid) })

/-- GET /api/stats from server-1.js. -/
def statsRouteV2 (uid : String) (st : St) : Resp × St :=
  let items := ddbQueryAsc st.table uid
  let totalSize := items.foldl (fun sum file => sum + file.fileSize.getD 0) 0
  let totalFiles := items.length
  (⟨200, JVal.obj [("totalFiles", JVal.num totalFiles),
    ("totalSize", JVal.num totalSize),
    ("totalSizeFormatted", JVal.str (formatBytes totalSize))]⟩, st)

/-- POST /api/auth/register from server-1.js. -/
def registerRouteV2 (ctx : Ctx) (body : ReqBody) : Resp :=
  match ctx.signUpRes body.email body.password body.name with
  | Except.ok _ => ⟨200, JVal.obj [("message",
      JVal.str "User registered successfully. Please check your email for verification.")]⟩
  | Except.error m => ⟨400, JVal.obj [("error", JVal.str m)]⟩

/-- POST /api/auth/login from server-1.js (SDK v2): the failure body is
always 'Invalid credentials'. -/
def loginRouteV2 (ctx : Ctx) (body : ReqBody) : Resp :=
  match ctx.loginRes body.email body.password with
  | Except.ok r => ⟨200, JVal.obj [("token", JVal.str r.1),
      ("refreshToken", JVal.str r.2.1), ("expiresIn", JVal.num r.2.2)]⟩
  | Except.error _ => ⟨401, JVal.obj [("error", JVal.str "Invalid credentials")]⟩

/-- POST /api/auth/verify from server-1.js. -/
def verifyRouteV2 (ctx : Ctx) (body : ReqBody) : Resp :=
  match ctx.confirmRes body.email body.code with
  | Except.ok _ => ⟨200, JVal.obj [("message", JVal.str "Email verified successfully")]⟩
  | Except.error m => ⟨400, JVal.obj [("error", JVal.str m)]⟩

/-- POST /api/auth/resend-verification from server-1.js. -/
def resendRouteV2 (ctx : Ctx) (body : ReqBody) : Resp :=
  if !(jsTruthy body.email) then
    ⟨400, JVal.obj [("error", JVal.str "Email is required")]⟩
  else
    match ctx.resendRes body.email with
    | Except.ok _ => ⟨200, JVal.obj [("message",
        JVal.str "Verification code resent successfully. Please check your email.")]⟩
    | Except.error m => ⟨400, JVal.obj [("error", JVal.str m)]⟩

/-- GET /api/health from server-1.js: no sdkVersion field. -/
def healthRouteV2 (ctx : Ctx) : Resp :=
  ⟨200, JVal.obj [("status", JVal.str "OK"),
    ("timestamp", JVal.str ctx.nowIso),
    ("uptime", JVal.num ctx.uptime),
    ("environment", JVal.str (jsOr ctx.nodeEnv "development"))]⟩

/-- The authenticateToken middleware of server-1.js (identical behaviour). -/
def authenticateTokenV2 (ctx : Ctx) (authHeader : Option String) (st : St)
    (handler : String → Resp × St) : Resp × St :=
  match tokenOf authHeader with
  | none => (⟨401, JVal.obj [("error", JVal.str "No token provided")]⟩, st)
  | some tok =>
    match ctx.tokenUser tok with
    | none => (⟨401, JVal.obj [("error", JVal.str "Invalid token")]⟩, st)
    | some uid => handler uid

/-- The whole server-1.js application (routes registered in the same order
and shapes as server.js). -/
def appV2 (ctx : Ctx) (m : Method) (segs : List String) (authHeader : Option String)
    (body : ReqBody) (file : Option UpFile) (st : St) : Resp × St :=
  match matchRoute m segs with
  | Matched.register => (registerRouteV2 ctx body, st)
  | Matched.login => (loginRouteV2 ctx body, st)
  | Matched.verify => (verifyRouteV2 ctx body, st)
  | Matched.resend => (resendRouteV2 ctx body, st)
  | Matched.upload => authenticateTokenV2 ctx authHeader st (fun uid => uploadRouteV2 uid ctx file st)
  | Matched.listFiles => authenticateTokenV2 ctx authHeader st (fun uid => listRouteV2 uid st)
  | Matched.getFile fid => authenticateTokenV2 ctx authHeader st (fun uid => getRouteV2 uid fid st)
  | Matched.download fid => authenticateTokenV2 ctx authHeader st (fun uid => downloadRouteV2 uid fid ctx st)
  | Matched.versions fid => authenticateTokenV2 ctx authHeader st (fun uid => versionsRouteV2 uid fid st)
  | Matched.delFile fid => authenticateTokenV2 ctx authHeader st (fun uid => deleteRouteV2 uid fid ctx st)
  | Matched.share fid => authenticateTokenV2 ctx authHeader st (fun uid => shareRouteV2 uid fid body.expiresIn ctx st)
  | Matched.unshare fid => authenticateTokenV2 ctx authHeader st (fun uid => unshareRouteV2 uid fid st)
  | Matched.health => (healthRouteV2 ctx, st)
  | Matched.stats => authenticateTokenV2 ctx authHeader st (fun uid => statsRouteV2 uid st)
  | Matched.noRoute => (routeNotFoundResp, st)

/-- Look up a field of a JSON-object body. -/
def bodyField (r : Resp) (k : String) : Option JVal :=
  match r.body with
  | JVal.obj fs => (fs.find? (fun p => p.1 == k)).map (fun p => p.2)
  | _ => none

/-- A numeric body field. -/
def numField (r : Resp) (k : String) : Option Nat :=
  match bodyField r k with
  | some (JVal.num n) => some n
  | _ => none

/-- A string body field. -/
def strField (r : Resp) (k : String) : Option String :=
  match bodyField r k with
  | some (JVal.str s) => some s
  | _ => none

/-- Length of an array body field. -/
def arrLenField (r : Resp) (k : String) : Option Nat :=
  match bodyField r k with
  | some (JVal.arr l) => some l.length
  | _ => none

/-- The record's download count as the spec reads it (absent counts as 0;
an absent record counts as 0). -/
def countOf (t : List Item) (u f : String) : Nat :=
  match ddbGet t u f with
  | some it => it.downloadCount.getD 0
  | none => 0

/-- An item is well formed when its stored object key (if any) lies in its
owner's namespace; upload-created records always are. -/
def wfItem (it : Item) : Bool :=
  match it.s3Key with
  | none => true
  | some k => strPfx (it.userId ++ "/") k

/-- Table well-formedness. -/
def wfTable (t : List Item) : Bool :=
  t.all wfItem

/-- The state with the metadata table restricted to the caller's partition. -/
def restrictTable (st : St) (uid : String) : St :=
  { st with table := ownOf st.table uid }

/-- The state with the bucket restricted to the caller's key namespace. -/
def restrictBucket (st : St) (uid : String) : St :=
  { st with bucket := st.bucket.filter (fun k => strPfx (uid ++ "/") k) }

/-- Every object key the request adds to or removes from the bucket lies in
the caller's namespace. -/
def bucketDeltaScoped (uid : String) (b b' : List String) : Prop :=
  ∀ k : String, ((k ∈ b' ∧ k ∉ b) ∨ (k ∈ b ∧ k ∉ b')) → strPfx (uid ++ "/") k = true

/-- The record the unshare upsert creates at a previously unused key: just
the key attributes and isPublic = false. -/
def ghostItem (uid fid : String) : Item :=
  { userId := uid, fileId := fid, isPublic := some false }

lemma find_filter_keep {α : Type} (p q : α → Bool) (h : ∀ a, p a = true → q a = true) :
    ∀ l : List α, (l.filter q).find? p = l.find? p := by
  intro l
  induction l with
  | nil => rfl
  | cons a as ih =>
    cases hq : q a with
    | true =>
      rw [List.filter_cons_of_pos hq, List.find?_cons, List.find?_cons]
      cases hp : p a with
      | true => rfl
      | false => exact ih
    | false =>
      rw [List.filter_cons_of_neg (by simp [hq]), List.find?_cons]
      cases hp : p a with
      | true => exact absurd (h a hp) (by simp [hq])
      | false => exact ih

lemma filter_filter_keep {α : Type} (p q : α → Bool) (h : ∀ a, p a = true → q a = true) :
    ∀ l : List α, (l.filter q).filter p = l.filter p := by
  intro l
  induction l with
  | nil => rfl
  | cons a as ih =>
    cases hq : q a with
    | true =>
      rw [List.filter_cons_of_pos hq, List.filter_cons, List.filter_cons]
      cases hp : p a with
      | true => rw [ih]
      | false => exact ih
    | false =>
      rw [List.filter_cons_of_neg (by simp [hq]), List.filter_cons]
      cases hp : p a with
      | true => exact absurd (h a hp) (by simp [hq])
      | false => exact ih

lemma filter_id_of_find_none {α : Type} (p : α → Bool) :
    ∀ l : List α, l.find? p = none → l.filter (fun a => !(p a)) = l := by
  intro l
  induction l with
  | nil => intro _; rfl
  | cons a as ih =>
    intro h
    rw [List.find?_cons] at h
    cases hp : p a with
    | true => simp [hp] at h
    | false =>
      simp only [hp] at h
      simp [hp, ih h]

lemma ddbGet_key (t : List Item) (u f : String) (it : Item)
    (h : ddbGet t u f = some it) : it.userId = u ∧ it.fileId = f := by
  have hk := List.find?_some h
  simpa [keyMatch, Bool.and_eq_true, beq_iff_eq] using hk

lemma ddbGet_mem (t : List Item) (u f : String) (it : Item)
    (h : ddbGet t u f = some it) : it ∈ t :=
  List.mem_of_find?_eq_some h

lemma keyMatch_self (it : Item) : keyMatch it.userId it.fileId it = true := by
  simp [keyMatch]

lemma ddbGet_ddbPut_self (t : List Item) (it : Item) :
    ddbGet (ddbPut t it) it.userId it.fileId = some it := by
  unfold ddbGet ddbPut
  rw [List.find?_cons_of_pos _ (keyMatch_self it)]

lemma ddbGet_ddbPut_ne (t : List Item) (it : Item) (u f : String)
    (h : ¬(u = it.userId ∧ f = it.fileId)) :
    ddbGet (ddbPut t it) u f = ddbGet t u f := by
  unfold ddbGet ddbPut
  have hne : keyMatch u f it = false := by
    cases hb : keyMatch u f it with
    | false => rfl
    | true =>
      have := (by simpa [keyMatch, Bool.and_eq_true, beq_iff_eq] using hb :
        it.userId = u ∧ it.fileId = f)
      exact absurd ⟨this.1.symm, this.2.symm⟩ h
  rw [List.find?_cons_of_neg _ (by simp [hne])]
  exact find_filter_keep _ _ (by
    intro r hr
    have hru := (by simpa [keyMatch, Bool.and_eq_true, beq_iff_eq] using hr :
      r.userId = u ∧ r.fileId = f)
    cases hb : keyMatch it.userId it.fileId r with
    | false => simp
    | true =>
      have := (by simpa [keyMatch, Bool.and_eq_true, beq_iff_eq] using hb :
        r.userId = it.userId ∧ r.fileId = it.fileId)
      exact absurd ⟨hru.1.symm.trans this.1, hru.2.symm.trans this.2⟩ h) t

lemma ddbGet_ddbDelete_self (t : List Item) (u f : String) :
    ddbGet (ddbDelete t u f) u f = none := by
  unfold ddbGet ddbDelete
  rw [List.find?_eq_none]
  intro r hr
  have := (List.mem_filter.mp hr).2
  simp only [Bool.not_eq_true'] at this
  simp [this]

lemma ddbGet_ownOf (t : List Item) (uid fid : String) :
    ddbGet (ownOf t uid) uid fid = ddbGet t uid fid := by
  unfold ddbGet ownOf
  exact find_filter_keep _ _ (by
    intro r hr
    have := (by simpa [keyMatch, Bool.and_eq_true, beq_iff_eq] using hr :
      r.userId = uid ∧ r.fileId = fid)
    simp [this.1]) t

lemma ddbQueryDesc_ownOf (t : List Item) (uid : String) :
    ddbQueryDesc (ownOf t uid) uid = ddbQueryDesc t uid := by
  unfold ddbQueryDesc ownOf
  rw [filter_filter_keep _ _ (fun a ha => ha) t]

lemma ddbQueryAsc_ownOf (t : List Item) (uid : String) :
    ddbQueryAsc (ownOf t uid) uid = ddbQueryAsc t uid := by
  unfold ddbQueryAsc ownOf
  rw [filter_filter_keep _ _ (fun a ha => ha) t]

lemma othersOf_ddbPut (t : List Item) (it : Item) (uid : String) (h : it.userId = uid) :
    othersOf (ddbPut t it) uid = othersOf t uid := by
  unfold othersOf ddbPut
  rw [List.filter_cons_of_neg (by simp [h])]
  exact filter_filter_keep _ _ (by
    intro r hr
    have hne : (r.userId == uid) = false := by
      cases hb : r.userId == uid with
      | false => rfl
      | true => simp [hb] at hr
    cases hb : keyMatch it.userId it.fileId r with
    | false => simp
    | true =>
      have := (by simpa [keyMatch, Bool.and_eq_true, beq_iff_eq] using hb :
        r.userId = it.userId ∧ r.fileId = it.fileId)
      rw [this.1, h] at hne
      simp at hne) t

lemma othersOf_ddbDelete (t : List Item) (uid fid : String) :
    othersOf (ddbDelete t uid fid) uid = othersOf t uid := by
  unfold othersOf ddbDelete
  exact filter_filter_keep _ _ (by
    intro r hr
    have hne : (r.userId == uid) = false := by
      cases hb : r.userId == uid with
      | false => rfl
      | true => simp [hb] at hr
    simp [keyMatch, hne]) t

lemma perm_insertDesc (x : Item) : ∀ l : List Item, List.Perm (insertDesc x l) (x :: l) := by
  intro l
  induction l with
  | nil => exact List.Perm.refl _
  | cons y ys ih =>
    unfold insertDesc
    split
    · exact List.Perm.refl _
    · exact (List.Perm.cons y ih).trans (List.Perm.swap x y ys)

lemma perm_sortDesc : ∀ l : List Item, List.Perm (sortDesc l) l := by
  intro l
  induction l with
  | nil => exact List.Perm.refl _
  | cons x xs ih =>
    unfold sortDesc
    exact (perm_insertDesc x (sortDesc xs)).trans (List.Perm.cons x ih)

lemma perm_insertAsc (x : Item) : ∀ l : List Item, List.Perm (insertAsc x l) (x :: l) := by
  intro l
  induction l with
  | nil => exact List.Perm.refl _
  | cons y ys ih =>
    unfold insertAsc
    split
    · exact List.Perm.refl _
    · exact (List.Perm.cons y ih).trans (List.Perm.swap x y ys)

lemma perm_sortAsc : ∀ l : List Item, List.Perm (sortAsc l) l := by
  intro l
  induction l with
  | nil => exact List.Perm.refl _
  | cons x xs ih =>
    unfold sortAsc
    exact (perm_insertAsc x (sortAsc xs)).trans (List.Perm.cons x ih)

lemma strPfx_self_append (a b : String) : strPfx a (a ++ b) = true := by
  simp only [strPfx, String.data_append]
  rw [List.isPrefixOf_iff_prefix]
  exact List.prefix_append a.data b.data

lemma strPfx_trans (a b c : String) (h1 : strPfx a b = true) (h2 : strPfx b c = true) :
    strPfx a c = true := by
  simp only [strPfx, List.isPrefixOf_iff_prefix] at *
  exact h1.trans h2

lemma uploadKey_scoped (uid mid name : String) :
    strPfx (uid ++ "/") (uid ++ "/" ++ mid ++ "-" ++ name) = true := by
  have : uid ++ "/" ++ mid ++ "-" ++ name = (uid ++ "/") ++ (mid ++ "-" ++ name) := by
    simp [String.append_assoc]
  rw [this]
  exact strPfx_self_append _ _

lemma wfTable_key (t : List Item) (it : Item) (k : String)
    (hwf : wfTable t = true) (hmem : it ∈ t) (hk : it.s3Key = some k) :
    strPfx (it.userId ++ "/") k = true := by
  have := (List.all_eq_true.mp hwf) it hmem
  simpa [wfItem, hk] using this

/-- A concrete oracle used by the closed evaluations below. -/
def ctx0 : Ctx :=
  { tokenUser := fun _ => none
    signUpRes := fun _ _ _ => Except.ok ()
    loginRes := fun _ _ => Except.error none
    confirmRes := fun _ _ => Except.ok ()
    resendRes := fun _ => Except.ok ()
    nowIso := "2025-01-01T00:00:00.000Z"
    isoOfMsPlus := fun _ => "2025-01-02T00:00:00.000Z"
    uptime := 0
    nodeEnv := none
    sign := fun _ _ _ => "https://signed.example/url"
    sdkMissingKeyMsg := "Missing required key Key in params"
    putErr := none
    multerId := "mk1"
    metaId := "mf1"
    s3Loc := "https://bucket.example/obj"
    s3Ver := none }

/-- An empty request body. -/
def body0 : ReqBody := {}

/-- Concrete uploaded files. -/
def file1 : UpFile := { originalname := "one.txt", size := 1, mimetype := "text/plain" }

def file2 : UpFile := { originalname := "two.txt", size := 2, mimetype := "text/plain" }

lemma statsRoute_totalFiles (uid : String) (s : St) :
    numField (statsRoute uid s).1 "totalFiles" = some (ddbQueryAsc s.table uid).length := by
  simp [statsRoute, numField, bodyField, List.find?]

/-- C9: unsharing a (userId, fileId) with no record answers 200 with the
success message and, the metadata update being an unconditional upsert,
creates a record holding only the key attributes and isPublic = false, which
then shows up in the user's listing and bumps the stats file count. -/
theorem unshare_upsert_creates_ghost (uid fid : String) (st : St)
    (hnone : ddbGet st.table uid fid = none) :
    (unshareRoute uid fid st).1
      = ⟨200, JVal.obj [("message", JVal.str "Share link revoked successfully")]⟩
    ∧ ddbGet (unshareRoute uid fid st).2.table uid fid = some (ghostItem uid fid)
    ∧ ghostItem uid fid ∈ ddbQueryDesc (unshareRoute uid fid st).2.table uid
    ∧ numField (statsRoute uid (unshareRoute uid fid st).2).1 "totalFiles"
        = some ((ddbQueryAsc st.table uid).length + 1) := by
  have htbl : (unshareRoute uid fid st).2.table = ddbPut st.table (ghostItem uid fid) := by
    simp [unshareRoute, ddbUpdate, hnone, applyUnshare, ghostItem]
  have hfilter : st.table.filter
      (fun r => !(keyMatch (ghostItem uid fid).userId (ghostItem uid fid).fileId r)) = st.table :=
    filter_id_of_find_none _ st.table hnone
  refine ⟨rfl, ?_, ?_, ?_⟩
  · rw [htbl]
    exact ddbGet_ddbPut_self st.table (ghostItem uid fid)
  · rw [htbl]
    unfold ddbQueryDesc
    refine (perm_sortDesc _).mem_iff.mpr ?_
    unfold ownOf ddbPut
    rw [List.filter_cons_of_pos (by simp [ghostItem])]
    exact List.mem_cons_self _ _
  · rw [statsRoute_totalFiles, htbl]
    have hq : (ddbQueryAsc (ddbPut st.table (ghostItem uid fid)) uid).length
        = (ddbQueryAsc st.table uid).length + 1 := by
      unfold ddbQueryAsc
      rw [(perm_sortAsc _).length_eq, (perm_sortAsc _).length_eq]
      unfold ownOf ddbPut
      rw [List.filter_cons_of_pos (by simp [ghostItem]), hfilter]
      rfl
    rw [hq]

/-- Witness for C9 at a concrete empty state. -/
theorem unshare_upsert_creates_ghost_witness :
    ddbGet ((⟨[], []⟩ : St)).table "u" "f" = none
    ∧ (unshareRoute "u" "f" ⟨[], []⟩).1
        = ⟨200, JVal.obj [("message", JVal.str "Share link revoked successfully")]⟩
    ∧ ddbGet (unshareRoute "u" "f" ⟨[], []⟩).2.table "u" "f" = some (ghostItem "u" "f")
    ∧ ghostItem "u" "f" ∈ ddbQueryDesc (unshareRoute "u" "f" ⟨[], []⟩).2.table "u"
    ∧ numField (statsRoute "u" (unshareRoute "u" "f" ⟨[], []⟩).2).1 "totalFiles"
        = some ((ddbQueryAsc ((⟨[], []⟩ : St)).table "u").length + 1) :=
  ⟨rfl, (unshare_upsert_creates_ghost "u" "f" ⟨[], []⟩ rfl).1,
    (unshare_upsert_creates_ghost "u" "f" ⟨[], []⟩ rfl).2.1,
    (unshare_upsert_creates_ghost "u" "f" ⟨[], []⟩ rfl).2.2.1,
    (unshare_upsert_creates_ghost "u" "f" ⟨[], []⟩ rfl).2.2.2⟩

/-- C5 (amended): for a record with a stored object key, share followed by
unshare leaves isPublic = false, no shareExpiry and no shareUrl, but the
lastShared timestamp written by share is not cleared. -/
theorem share_then_unshare_fields (uid fid : String) (expIn : Option Nat) (ctx : Ctx)
    (st : St) (it : Item) (k : String)
    (hget : ddbGet st.table uid fid = some it) (hkey : it.s3Key = some k) :
    ddbGet (unshareRoute uid fid (shareRoute uid fid expIn ctx st).2).2.table uid fid
      = some { it with isPublic := some false, lastShared := some ctx.nowIso, shareExpiry := none, shareUrl := none } := by
  have hids := ddbGet_key st.table uid fid it hget
  have hst1 : (shareRoute uid fid expIn ctx st).2.table
      = ddbPut st.table (applyShare uid fid ctx.nowIso
          (ctx.isoOfMsPlus (expIn.getD 86400 * 1000)) (some it)) := by
    simp [shareRoute, ddbUpdate, hget, hkey]
  have hget1 : ddbGet (shareRoute uid fid expIn ctx st).2.table uid fid
      = some (applyShare uid fid ctx.nowIso
          (ctx.isoOfMsPlus (expIn.getD 86400 * 1000)) (some it)) := by
    rw [hst1]
    have h := ddbGet_ddbPut_self st.table (applyShare uid fid ctx.nowIso
      (ctx.isoOfMsPlus (expIn.getD 86400 * 1000)) (some it))
    simpa [applyShare, hids.1, hids.2] using h
  have hst2 : (unshareRoute uid fid (shareRoute uid fid expIn ctx st).2).2.table
      = ddbPut (shareRoute uid fid expIn ctx st).2.table
          (applyUnshare uid fid (some (applyShare uid fid ctx.nowIso
            (ctx.isoOfMsPlus (expIn.getD 86400 * 1000)) (some it)))) := by
    simp [unshareRoute, ddbUpdate, hget1]
  rw [hst2]
  have h := ddbGet_ddbPut_self (shareRoute uid fid expIn ctx st).2.table
    (applyUnshare uid fid (some (applyShare uid fid ctx.nowIso
      (ctx.isoOfMsPlus (expIn.getD 86400 * 1000)) (some it))))
  simpa [applyUnshare, applyShare, hids.1, hids.2] using h

/-- A fully populated record and state for concrete evaluations. -/
def recC5 : Item :=
  { userId := "u"
    fileId := "f"
    fileName := some "f.txt"
    fileSize := some 10
    s3Key := some "u/k-f.txt"
    s3Location := some "https://bucket.example/u/k-f.txt"
    versionId := none
    mimeType := some "text/plain"
    uploadDate := some "2024-12-31T00:00:00.000Z"
    isPublic := some false
    downloadCount := some 0 }

def stC5 : St := ⟨[recC5], ["u/k-f.txt"]⟩

/-- Counterexample to C5 as stated: after share immediately followed by
unshare, the lastShared field set by share is still present — unshare does
not clear everything share sets. -/
theorem unshare_keeps_lastShared_cex :
    ((ddbGet (unshareRoute "u" "f" (shareRoute "u" "f" none ctx0 stC5).2).2.table "u" "f").map
        Item.lastShared) = some (some "2025-01-01T00:00:00.000Z")
    ∧ ((ddbGet (unshareRoute "u" "f" (shareRoute "u" "f" none ctx0 stC5).2).2.table "u" "f").map
        Item.lastShared) ≠ some none := by
  exact ⟨rfl, by decide⟩

/-- Witness for C5 at the concrete populated record. -/
theorem share_then_unshare_fields_witness :
    ddbGet stC5.table "u" "f" = some recC5
    ∧ recC5.s3Key = some "u/k-f.txt"
    ∧ ddbGet (unshareRoute "u" "f" (shareRoute "u" "f" none ctx0 stC5).2).2.table "u" "f"
        = some { recC5 with isPublic := some false, lastShared := some ctx0.nowIso, shareExpiry := none, shareUrl := none } :=
  ⟨rfl, rfl, share_then_unshare_fields "u" "f" none ctx0 stC5 recC5 "u/k-f.txt" rfl rfl⟩

/-- C8 (amended): an upload stores the object under
`<userId>/<k>-<originalFilename>` where `k` is the fresh id drawn by the
upload middleware, and stores the metadata record under the table key
(userId, fileId) where fileId is a second, independently drawn id; the
record's s3Key carries the middleware id, not its own fileId. -/
theorem upload_key_and_record (uid : String) (ctx : Ctx) (f : UpFile) (st : St)
    (hput : ctx.putErr = none) :
    ddbGet (uploadRoute uid ctx (some f) st).2.table uid ctx.metaId
      = some { userId := uid, fileId := ctx.metaId, fileName := some f.originalname, fileSize := some f.size, s3Key := some (uid ++ "/" ++ ctx.multerId ++ "-" ++ f.originalname), s3Location := some ctx.s3Loc, versionId := ctx.s3Ver, mimeType := some f.mimetype, uploadDate := some ctx.nowIso, isPublic := some false, downloadCount := some 0 }
    ∧ (uid ++ "/" ++ ctx.multerId ++ "-" ++ f.originalname) ∈ (uploadRoute uid ctx (some f) st).2.bucket := by
  constructor
  · show ddbGet (match ctx.putErr with
      | some msg => _
      | none => _ : Resp × St).2.table uid ctx.metaId = _
    rw [hput]
    exact ddbGet_ddbPut_self _ _
  · show (uid ++ "/" ++ ctx.multerId ++ "-" ++ f.originalname) ∈ (match ctx.putErr with
      | some msg => _
      | none => _ : Resp × St).2.bucket
    rw [hput]
    exact List.mem_cons_self _ _

def ctx8 : Ctx := { ctx0 with multerId := "aaa", metaId := "bbb" }

def st8 : St := (uploadRoute "u" ctx8 (some file1) ⟨[], []⟩).2

/-- Counterexample to C8 as stated: the identifier embedded in the stored
object key is not the record's sort key — the record under fileId "bbb" has
s3Key "u/aaa-one.txt", not "u/bbb-one.txt". -/
theorem upload_key_id_mismatch_cex :
    ((ddbGet st8.table "u" "bbb").map Item.fileId) = some "bbb"
    ∧ ((ddbGet st8.table "u" "bbb").bind Item.s3Key) = some "u/aaa-one.txt"
    ∧ ((ddbGet st8.table "u" "bbb").bind Item.s3Key)
        ≠ some ("u" ++ "/" ++ "bbb" ++ "-" ++ "one.txt") := by
  refine ⟨rfl, rfl, by decide⟩

/-- Witness for C8 at a concrete upload. -/
theorem upload_key_and_record_witness :
    ctx8.putErr = none
    ∧ ddbGet (uploadRoute "u" ctx8 (some file1) ⟨[], []⟩).2.table "u" ctx8.metaId
        = some { userId := "u", fileId := ctx8.metaId, fileName := some file1.originalname, fileSize := some file1.size, s3Key := some ("u" ++ "/" ++ ctx8.multerId ++ "-" ++ file1.originalname), s3Location := some ctx8.s3Loc, versionId := ctx8.s3Ver, mimeType := some file1.mimetype, uploadDate := some ctx8.nowIso, isPublic := some false, downloadCount := some 0 }
    ∧ ("u" ++ "/" ++ ctx8.multerId ++ "-" ++ file1.originalname)
        ∈ (uploadRoute "u" ctx8 (some file1) ⟨[], []⟩).2.bucket :=
  ⟨rfl, (upload_key_and_record "u" ctx8 file1 ⟨[], []⟩ rfl).1,
    (upload_key_and_record "u" ctx8 file1 ⟨[], []⟩ rfl).2⟩

/-- The routes whose handler requires the addressed record to exist before
acting (unshare is deliberately absent: its update is unconditional). -/
def reqTarget : FileReq → Option String
  | FileReq.getOne fid => some fid
  | FileReq.download fid => some fid
  | FileReq.versions fid => some fid
  | FileReq.delFile fid => some fid
  | FileReq.share fid _ => some fid
  | _ => none

/-- C3 (amended): the get-one, download, versions, delete and share routes
answer 404 File-not-found and leave the state untouched when no record
exists at (userId, fileId); after a successful delete, fetching the file
and deleting it again both answer 404.  (Unshare is excluded: it upserts
and answers 200.) -/
theorem notfound_semantics (uid : String) (ctx : Ctx) (st : St) :
    (∀ rq fid, reqTarget rq = some fid → ddbGet st.table uid fid = none →
      handleFile uid ctx rq st = (notFoundResp, st))
    ∧ (∀ fid ctx2, (handleFile uid ctx (FileReq.delFile fid) st).1.status = 200 →
      handleFile uid ctx2 (FileReq.getOne fid) (handleFile uid ctx (FileReq.delFile fid) st).2
        = (notFoundResp, (handleFile uid ctx (FileReq.delFile fid) st).2)
      ∧ handleFile uid ctx2 (FileReq.delFile fid) (handleFile uid ctx (FileReq.delFile fid) st).2
        = (notFoundResp, (handleFile uid ctx (FileReq.delFile fid) st).2)) := by
  constructor
  · intro rq fid htg hget
    cases rq with
    | getOne f =>
      have : f = fid := by simpa [reqTarget] using htg
      subst this
      simp [handleFile, getRoute, hget]
    | download f =>
      have : f = fid := by simpa [reqTarget] using htg
      subst this
      simp [handleFile, downloadRoute, hget]
    | versions f =>
      have : f = fid := by simpa [reqTarget] using htg
      subst this
      simp [handleFile, versionsRoute, hget]
    | delFile f =>
      have : f = fid := by simpa [reqTarget] using htg
      subst this
      simp [handleFile, deleteRoute, hget]
    | share f expIn =>
      have : f = fid := by simpa [reqTarget] using htg
      subst this
      simp [handleFile, shareRoute, hget]
    | upload f => simp [reqTarget] at htg
    | listFiles => simp [reqTarget] at htg
    | unshare f => simp [reqTarget] at htg
    | stats => simp [reqTarget] at htg
  · intro fid ctx2 h200
    simp only [handleFile] at h200 ⊢
    cases hg : ddbGet st.table uid fid with
    | none => simp [deleteRoute, hg, notFoundResp] at h200
    | some it =>
      cases hk : it.s3Key with
      | none => simp [deleteRoute, hg, hk] at h200
      | some k =>
        have hpost : (deleteRoute uid fid ctx st).2.table = ddbDelete st.table uid fid := by
          simp [deleteRoute, hg, hk]
        have hgone : ddbGet (deleteRoute uid fid ctx st).2.table uid fid = none := by
          rw [hpost]
          exact ddbGet_ddbDelete_self st.table uid fid
        generalize hS : (deleteRoute uid fid ctx st).2 = S at hgone ⊢
        constructor
        · unfold getRoute
          rw [hgone]
        · unfold deleteRoute
          rw [hgone]

/-- Counterexample to C3 as stated: unsharing a nonexistent record does not
yield 404 — the route answers 200. -/
theorem unshare_no_notfound_cex :
    ddbGet ((⟨[], []⟩ : St)).table "u" "f" = none
    ∧ (handleFile "u" ctx0 (FileReq.unshare "f") ⟨[], []⟩).1.status = 200
    ∧ (handleFile "u" ctx0 (FileReq.unshare "f") ⟨[], []⟩).1.status ≠ 404 :=
  ⟨rfl, rfl, by decide⟩

/-- Witness for C3: a missing record 404s on the get-one route, and a
successful delete of a real record makes the following fetch and delete
404. -/
theorem notfound_semantics_witness :
    ddbGet ((⟨[], []⟩ : St)).table "u" "missing" = none
    ∧ reqTarget (FileReq.getOne "missing") = some "missing"
    ∧ handleFile "u" ctx0 (FileReq.getOne "missing") ⟨[], []⟩ = (notFoundResp, ⟨[], []⟩)
    ∧ (handleFile "u" ctx0 (FileReq.delFile "f") stC5).1.status = 200
    ∧ handleFile "u" ctx0 (FileReq.getOne "f") (handleFile "u" ctx0 (FileReq.delFile "f") stC5).2
        = (notFoundResp, (handleFile "u" ctx0 (FileReq.delFile "f") stC5).2) :=
  ⟨rfl, rfl, (notfound_semantics "u" ctx0 ⟨[], []⟩).1 (FileReq.getOne "missing") "missing" rfl rfl,
    rfl, ((notfound_semantics "u" ctx0 stC5).2 "f" ctx0 rfl).1⟩

def c2CtxA : Ctx :=
  { ctx0 with multerId := "k1", metaId := "bfile", nowIso := "2025-01-01T00:00:00.000Z" }

def c2CtxB : Ctx :=
  { ctx0 with multerId := "k2", metaId := "afile", nowIso := "2025-01-02T00:00:00.000Z" }

def c2St : St :=
  (uploadRoute "u" c2CtxB (some file2) (uploadRoute "u" c2CtxA (some file1) ⟨[], []⟩).2).2

/-- C2 evaluated at the failing input: after uploading one.txt (record id
"bfile", 2025-01-01) and then two.txt (record id "afile", 2025-01-02), the
listing query orders by the random sort key descending, so the OLDER upload
"bfile" comes first even though "afile" is the newest — the code's own
"Sort by newest first" comment is not what ScanIndexForward realizes.  Both
records do appear with their fileName/fileSize. -/
theorem list_order_at_failing_input :
    ((ddbQueryDesc c2St.table "u").map
        (fun it => (it.fileId, it.fileName, it.fileSize, it.uploadDate)))
      = [("bfile", some "one.txt", some 1, some "2025-01-01T00:00:00.000Z"),
         ("afile", some "two.txt", some 2, some "2025-01-02T00:00:00.000Z")]
    ∧ numField (listRoute "u" c2St).1 "count" = some 2
    ∧ arrLenField (listRoute "u" c2St).1 "files" = some 2 := by
  exact ⟨by decide, rfl, rfl⟩

def ctx7 : Ctx :=
  { ctx0 with nodeEnv := some "production", putErr := some "ProvisionedThroughputExceededException" }

/-- C7 (amended): only the global Express error handler is environment
gated — it answers a generic 'Internal server error', attaching the raw
message solely under NODE_ENV = development; the per-route catch blocks
(here the upload handler's) always put the raw adapter error message in the
500 body, whatever the environment. -/
theorem error_message_policy :
    (∀ env msg, env ≠ some "development" →
      globalErrorResp env msg = ⟨500, JVal.obj [("error", JVal.str "Internal server error")]⟩)
    ∧ (∀ msg, globalErrorResp (some "development") msg
        = ⟨500, JVal.obj [("error", JVal.str "Internal server error"), ("message", JVal.str msg)]⟩)
    ∧ (∀ uid ctx f st msg, ctx.putErr = some msg →
      (uploadRoute uid ctx (some f) st).1 = ⟨500, JVal.obj [("error", JVal.str msg)]⟩) := by
  refine ⟨?_, ?_, ?_⟩
  · intro env msg h
    simp [globalErrorResp, h]
  · intro msg
    simp [globalErrorResp]
  · intro uid ctx f st msg h
    show (match ctx.putErr with
      | some m => _
      | none => _ : Resp × St).1 = _
    rw [h]

/-- Counterexample to C7 as stated: in production, a failed upload put
produces a 500 whose body carries the raw external-service error message,
not the generic one the global handler would give. -/
theorem production_raw_error_cex :
    ctx7.nodeEnv = some "production"
    ∧ (uploadRoute "u" ctx7 (some file1) ⟨[], []⟩).1.status = 500
    ∧ strField (uploadRoute "u" ctx7 (some file1) ⟨[], []⟩).1 "error"
        = some "ProvisionedThroughputExceededException"
    ∧ strField (uploadRoute "u" ctx7 (some file1) ⟨[], []⟩).1 "error"
        ≠ some "Internal server error"
    ∧ strField (globalErrorResp ctx7.nodeEnv "ProvisionedThroughputExceededException") "error"
        = some "Internal server error" :=
  ⟨rfl, rfl, rfl, by decide, rfl⟩

/-- Witness for C7 at concrete environments and a concrete failing put. -/
theorem error_message_policy_witness :
    (some "production" ≠ some "development")
    ∧ globalErrorResp (some "production") "boom"
        = ⟨500, JVal.obj [("error", JVal.str "Internal server error")]⟩
    ∧ globalErrorResp (some "development") "boom"
        = ⟨500, JVal.obj [("error", JVal.str "Internal server error"), ("message", JVal.str "boom")]⟩
    ∧ ctx7.putErr = some "ProvisionedThroughputExceededException"
    ∧ (uploadRoute "u" ctx7 (some file1) ⟨[], []⟩).1
        = ⟨500, JVal.obj [("error", JVal.str "ProvisionedThroughputExceededException")]⟩ :=
  ⟨by decide, error_message_policy.1 (some "production") "boom" (by decide),
    error_message_policy.2.1 "boom", rfl,
    error_message_policy.2.2 "u" ctx7 file1 ⟨[], []⟩ _ rfl⟩

/-- C6 (amended): a request hitting any registered /api/files route without
a bearer token is answered 401 No-token-provided before any handler runs;
but a method/path combination under /files matching no registered route
falls through to the 404 catch-all, token or not. -/
theorem files_routes_require_token (ctx : Ctx) (m : Method) (segs : List String)
    (authHeader : Option String) (body : ReqBody) (file : Option UpFile) (st : St)
    (htok : tokenOf authHeader = none) :
    (isFilesMatch (matchRoute m segs) = true →
      appV3 ctx m segs authHeader body file st
        = (⟨401, JVal.obj [("error", JVal.str "No token provided")]⟩, st))
    ∧ (matchRoute m segs = Matched.noRoute →
      appV3 ctx m segs authHeader body file st = (routeNotFoundResp, st)) := by
  constructor
  · intro hm
    cases hmr : matchRoute m segs <;> rw [hmr] at hm <;>
      first
        | (simp [isFilesMatch] at hm; done)
        | simp [appV3, hmr, authenticateToken, htok]
  · intro hm
    simp [appV3, hm]

/-- Counterexample to C6 as stated: PUT /api/files/upload matches no
registered route, so a tokenless request receives 404, not 401. -/
theorem files_unmatched_404_cex :
    tokenOf none = none
    ∧ (appV3 ctx0 Method.put ["api", "files", "upload"] none body0 none ⟨[], []⟩).1.status = 404
    ∧ (appV3 ctx0 Method.put ["api", "files", "upload"] none body0 none ⟨[], []⟩).1.status ≠ 401 :=
  ⟨rfl, rfl, by decide⟩

/-- Witness for C6 at GET /api/files with no Authorization header. -/
theorem files_routes_require_token_witness :
    tokenOf none = none
    ∧ isFilesMatch (matchRoute Method.get ["api", "files"]) = true
    ∧ appV3 ctx0 Method.get ["api", "files"] none body0 none ⟨[], []⟩
        = (⟨401, JVal.obj [("error", JVal.str "No token provided")]⟩, ⟨[], []⟩) :=
  ⟨rfl, rfl,
    (files_routes_require_token ctx0 Method.get ["api", "files"] none body0 none ⟨[], []⟩ rfl).1 rfl⟩

/-- uuid freshness assumption for the single route that draws a fresh
record id: the upload's metadata id is not already a sort key of the
caller; all other requests need nothing. -/
def freshOk (uid : String) (ctx : Ctx) (rq : FileReq) (st : St) : Prop :=
  match rq with
  | FileReq.upload _ => ddbGet st.table uid ctx.metaId = none
  | _ => True

lemma getRoute_st (uid fid : String) (st : St) : (getRoute uid fid st).2 = st := by
  unfold getRoute
  split <;> rfl

lemma versionsRoute_st (uid fid : String) (st : St) : (versionsRoute uid fid st).2 = st := by
  unfold versionsRoute
  split <;> rfl

lemma uploadRoute_table (uid : String) (ctx : Ctx) (file : UpFile) (st : St) :
    (uploadRoute uid ctx (some file) st).2.table
      = match ctx.putErr with
        | some _ => st.table
        | none => ddbPut st.table
            { userId := uid, fileId := ctx.metaId, fileName := some file.originalname, fileSize := some file.size, s3Key := some (uid ++ "/" ++ ctx.multerId ++ "-" ++ file.originalname), s3Location := some ctx.s3Loc, versionId := ctx.s3Ver, mimeType := some file.mimetype, uploadDate := some ctx.nowIso, isPublic := some false, downloadCount := some 0 } := by
  cases hput : ctx.putErr <;> simp [uploadRoute, hput]

lemma countOf_ddbPut_eq (t : List Item) (it : Item) (u f : String)
    (hu : it.userId = u) (hf : it.fileId = f) :
    countOf (ddbPut t it) u f = it.downloadCount.getD 0 := by
  unfold countOf
  subst hu
  subst hf
  rw [ddbGet_ddbPut_self]

lemma countOf_ddbPut_ne (t : List Item) (it : Item) (u f : String)
    (h : ¬(u = it.userId ∧ f = it.fileId)) :
    countOf (ddbPut t it) u f = countOf t u f := by
  unfold countOf
  rw [ddbGet_ddbPut_ne t it u f h]

/-- C4 (amended): for every record that carries a stored object key (all
upload-created records), the download route answers 200 with expiresIn 3600
and the signed URL, and bumps that record's downloadCount by exactly one
(absent counting as 0); and under uuid freshness, no request other than the
delete route ever lowers any record's downloadCount.  (A record without
s3Key — creatable through the unshare upsert — instead makes the presigner
throw: 500, no URL, no increment; see the counterexample.) -/
theorem download_metrics :
    (∀ uid fid ctx st it k, ddbGet st.table uid fid = some it → it.s3Key = some k →
      (downloadRoute uid fid ctx st).1.status = 200
      ∧ numField (downloadRoute uid fid ctx st).1 "expiresIn" = some 3600
      ∧ strField (downloadRoute uid fid ctx st).1 "downloadUrl"
          = some (ctx.sign k (some ("attachment; filename=\"" ++ jsStr it.fileName ++ "\"")) 3600)
      ∧ countOf (downloadRoute uid fid ctx st).2.table uid fid
          = countOf st.table uid fid + 1)
    ∧ (∀ uid ctx rq st, (∀ fid, rq ≠ FileReq.delFile fid) → freshOk uid ctx rq st →
        ∀ u f, countOf st.table u f ≤ countOf (handleFile uid ctx rq st).2.table u f) := by
  constructor
  · intro uid fid ctx st it k hget hkey
    have hids := ddbGet_key st.table uid fid it hget
    have hroute : downloadRoute uid fid ctx st
        = (⟨200, JVal.obj ([("downloadUrl", JVal.str (ctx.sign k
              (some ("attachment; filename=\"" ++ jsStr it.fileName ++ "\"")) 3600))]
            ++ optF "fileName" (it.fileName.map JVal.str)
            ++ [("expiresIn", JVal.num 3600)])⟩,
          { st with table := ddbUpdate st.table uid fid (applyDownloadInc uid fid) }) := by
      simp [downloadRoute, hget, hkey]
    refine ⟨by rw [hroute], ?_, ?_, ?_⟩
    · rw [hroute]
      cases it.fileName <;> simp [numField, bodyField, optF]
    · rw [hroute]
      cases it.fileName <;> simp [strField, bodyField, optF]
    · rw [hroute]
      show countOf (ddbUpdate st.table uid fid (applyDownloadInc uid fid)) uid fid = _
      unfold ddbUpdate
      rw [hget, countOf_ddbPut_eq st.table (applyDownloadInc uid fid (some it)) uid fid hids.1 hids.2]
      unfold countOf
      rw [hget]
      simp [applyDownloadInc]
  · intro uid ctx rq st hnd hfr u f
    cases rq with
    | delFile fid => exact absurd rfl (hnd fid)
    | listFiles => exact Nat.le_refl _
    | stats => exact Nat.le_refl _
    | getOne fid =>
      simp only [handleFile]
      rw [getRoute_st]
    | versions fid =>
      simp only [handleFile]
      rw [versionsRoute_st]
    | upload fo =>
      cases fo with
      | none => exact Nat.le_refl _
      | some file =>
        have hfr2 : ddbGet st.table uid ctx.metaId = none := hfr
        simp only [handleFile]
        rw [uploadRoute_table]
        cases hput : ctx.putErr with
        | some msg => exact Nat.le_refl _
        | none =>
          by_cases hc : u = uid ∧ f = ctx.metaId
          · have hz : countOf st.table u f = 0 := by
              unfold countOf
              rw [hc.1, hc.2, hfr2]
            rw [hz]
            exact Nat.zero_le _
          · rw [countOf_ddbPut_ne _ _ _ _ (fun hc2 => hc ⟨hc2.1, hc2.2⟩)]
    | download fid =>
      simp only [handleFile]
      cases hg : ddbGet st.table uid fid with
      | none =>
        simp only [downloadRoute, hg]
        exact Nat.le_refl _
      | some it =>
        have hids := ddbGet_key st.table uid fid it hg
        cases hk : it.s3Key with
        | none =>
          simp only [downloadRoute, hg, hk]
          exact Nat.le_refl _
        | some k =>
          simp only [downloadRoute, hg, hk, ddbUpdate]
          by_cases hc : u = uid ∧ f = fid
          · rw [countOf_ddbPut_eq st.table (applyDownloadInc uid fid (some it)) u f
              (hids.1.trans hc.1.symm) (hids.2.trans hc.2.symm)]
            have hpre : countOf st.table u f = it.downloadCount.getD 0 := by
              unfold countOf
              rw [hc.1, hc.2, hg]
            rw [hpre]
            simp only [applyDownloadInc, Option.getD_some]
            exact Nat.le_succ _
          · rw [countOf_ddbPut_ne st.table (applyDownloadInc uid fid (some it)) u f
              (fun hc2 => hc ⟨hc2.1.trans hids.1, hc2.2.trans hids.2⟩)]
    | share fid expIn =>
      simp only [handleFile]
      cases hg : ddbGet st.table uid fid with
      | none =>
        simp only [shareRoute, hg]
        exact Nat.le_refl _
      | some it =>
        have hids := ddbGet_key st.table uid fid it hg
        cases hk : it.s3Key with
        | none =>
          simp only [shareRoute, hg, hk]
          exact Nat.le_refl _
        | some k =>
          simp only [shareRoute, hg, hk, ddbUpdate]
          by_cases hc : u = uid ∧ f = fid
          · rw [countOf_ddbPut_eq st.table (applyShare uid fid ctx.nowIso
                (ctx.isoOfMsPlus (expIn.getD 86400 * 1000)) (some it)) u f
              (hids.1.trans hc.1.symm) (hids.2.trans hc.2.symm)]
            have hpre : countOf st.table u f = it.downloadCount.getD 0 := by
              unfold countOf
              rw [hc.1, hc.2, hg]
            rw [hpre]
            exact Nat.le_refl _
          · rw [countOf_ddbPut_ne st.table (applyShare uid fid ctx.nowIso
                (ctx.isoOfMsPlus (expIn.getD 86400 * 1000)) (some it)) u f
              (fun hc2 => hc ⟨hc2.1.trans hids.1, hc2.2.trans hids.2⟩)]
    | unshare fid =>
      simp only [handleFile, unshareRoute, ddbUpdate]
      cases hg : ddbGet st.table uid fid with
      | none =>
        by_cases hc : u = uid ∧ f = fid
        · have hz : countOf st.table u f = 0 := by
            unfold countOf
            rw [hc.1, hc.2, hg]
          rw [hz]
          exact Nat.zero_le _
        · rw [countOf_ddbPut_ne st.table (applyUnshare uid fid none) u f
            (fun hc2 => hc ⟨hc2.1, hc2.2⟩)]
      | some it =>
        have hids := ddbGet_key st.table uid fid it hg
        by_cases hc : u = uid ∧ f = fid
        · rw [countOf_ddbPut_eq st.table (applyUnshare uid fid (some it)) u f
            (hids.1.trans hc.1.symm) (hids.2.trans hc.2.symm)]
          have hpre : countOf st.table u f = it.downloadCount.getD 0 := by
            unfold countOf
            rw [hc.1, hc.2, hg]
          rw [hpre]
          exact Nat.le_refl _
        · rw [countOf_ddbPut_ne st.table (applyUnshare uid fid (some it)) u f
            (fun hc2 => hc ⟨hc2.1.trans hids.1, hc2.2.trans hids.2⟩)]

def st4 : St := ⟨[ghostItem "u" "f"], []⟩

/-- Counterexample to C4 as stated: on an existing record without s3Key
(the unshare-created kind), the download route yields 500 — no signed URL,
no expiresIn, and the downloadCount is not incremented. -/
theorem download_ghost_cex :
    (ddbGet st4.table "u" "f").isSome = true
    ∧ (downloadRoute "u" "f" ctx0 st4).1.status = 500
    ∧ (downloadRoute "u" "f" ctx0 st4).1.status ≠ 200
    ∧ strField (downloadRoute "u" "f" ctx0 st4).1 "downloadUrl" = none
    ∧ numField (downloadRoute "u" "f" ctx0 st4).1 "expiresIn" = none
    ∧ countOf (downloadRoute "u" "f" ctx0 st4).2.table "u" "f" = countOf st4.table "u" "f" :=
  ⟨rfl, rfl, by decide, rfl, rfl, rfl⟩

/-- Witness for C4 at the concrete populated record of stC5 and a harmless
non-delete request for the monotonicity half. -/
theorem download_metrics_witness :
    ddbGet stC5.table "u" "f" = some recC5
    ∧ recC5.s3Key = some "u/k-f.txt"
    ∧ (downloadRoute "u" "f" ctx0 stC5).1.status = 200
    ∧ numField (downloadRoute "u" "f" ctx0 stC5).1 "expiresIn" = some 3600
    ∧ countOf (downloadRoute "u" "f" ctx0 stC5).2.table "u" "f" = countOf stC5.table "u" "f" + 1
    ∧ countOf stC5.table "u" "f"
        ≤ countOf (handleFile "u" ctx0 (FileReq.getOne "f") stC5).2.table "u" "f" :=
  ⟨rfl, rfl, (download_metrics.1 "u" "f" ctx0 stC5 recC5 "u/k-f.txt" rfl rfl).1,
    (download_metrics.1 "u" "f" ctx0 stC5 recC5 "u/k-f.txt" rfl rfl).2.1,
    (download_metrics.1 "u" "f" ctx0 stC5 recC5 "u/k-f.txt" rfl rfl).2.2.2,
    download_metrics.2 "u" ctx0 (FileReq.getOne "f") stC5
      (fun fid h => FileReq.noConfusion h) trivial "u" "f"⟩

/-- The login-route responses of the two servers coincide exactly when the
identity provider's reported failure message is empty/undefined or already
the fixed fallback text. -/
def loginAgrees (ctx : Ctx) (body : ReqBody) : Prop :=
  match ctx.loginRes body.email body.password with
  | Except.ok _ => True
  | Except.error m => jsOr m "Invalid credentials" = "Invalid credentials"

/-- C10 (amended): run against identical external-service behaviour, the
SDK v3 server (server.js) and the SDK v2 server (server-1.js) produce the
same status, body and state on every route except GET /api/health (whose v3
body carries an extra sdkVersion field) and the POST /api/auth/login
failure path (where v3 echoes the provider's message when nonempty and v2
always answers 'Invalid credentials'). -/
theorem servers_agree_off_health_login (ctx : Ctx) (m : Method) (segs : List String)
    (authHeader : Option String) (body : ReqBody) (file : Option UpFile) (st : St)
    (hh : matchRoute m segs ≠ Matched.health)
    (hl : matchRoute m segs = Matched.login → loginAgrees ctx body) :
    appV3 ctx m segs authHeader body file st = appV2 ctx m segs authHeader body file st := by
  cases hmr : matchRoute m segs
  case health => exact absurd hmr hh
  case login =>
    have hla := hl hmr
    simp only [appV3, appV2, hmr]
    unfold loginRoute loginRouteV2
    unfold loginAgrees at hla
    cases hres : ctx.loginRes body.email body.password with
    | ok r => rfl
    | error e =>
      rw [hres] at hla
      exact congrArg
        (fun b => ((⟨401, JVal.obj [("error", JVal.str b)]⟩ : Resp), st)) hla
  all_goals (simp only [appV3, appV2, hmr]; try rfl)

/-- Counterexample to C10 as stated: on GET /api/health with identical
oracles, server.js answers with an sdkVersion field that server-1.js never
emits, so the two bodies differ. -/
theorem servers_differ_health_cex :
    strField (appV3 ctx0 Method.get ["api", "health"] none body0 none ⟨[], []⟩).1 "sdkVersion"
      = some "v3"
    ∧ strField (appV2 ctx0 Method.get ["api", "health"] none body0 none ⟨[], []⟩).1 "sdkVersion"
      = none
    ∧ (appV3 ctx0 Method.get ["api", "health"] none body0 none ⟨[], []⟩).1
      ≠ (appV2 ctx0 Method.get ["api", "health"] none body0 none ⟨[], []⟩).1 := by
  refine ⟨rfl, rfl, fun h => ?_⟩
  have h2 : (some "v3" : Option String) = none :=
    congrArg (fun r => strField r "sdkVersion") h
  exact Option.noConfusion h2

/-- Witness for C10 on a route other than health/login. -/
theorem servers_agree_witness :
    matchRoute Method.get ["api", "files"] ≠ Matched.health
    ∧ appV3 ctx0 Method.get ["api", "files"] none body0 none ⟨[], []⟩
        = appV2 ctx0 Method.get ["api", "files"] none body0 none ⟨[], []⟩ :=
  ⟨by decide,
    servers_agree_off_health_login ctx0 Method.get ["api", "files"] none body0 none ⟨[], []⟩
      (by decide) (fun h => absurd h (by decide))⟩

lemma bucketDeltaScoped_refl (uid : String) (b : List String) : bucketDeltaScoped uid b b := by
  intro k hk
  rcases hk with ⟨h1, h2⟩ | ⟨h1, h2⟩ <;> exact absurd h1 h2

lemma bucketDeltaScoped_cons (uid key : String) (b : List String)
    (h : strPfx (uid ++ "/") key = true) : bucketDeltaScoped uid b (key :: b) := by
  intro k hk
  rcases hk with ⟨h1, h2⟩ | ⟨h1, h2⟩
  · rcases List.mem_cons.mp h1 with he | hm
    · rw [he]
      exact h
    · exact absurd hm h2
  · exact absurd (List.mem_cons_of_mem key h1) h2

lemma bucketDeltaScoped_delete (uid key : String) (b : List String)
    (h : strPfx (uid ++ "/") key = true) : bucketDeltaScoped uid b (s3Delete b key) := by
  intro k hk
  rcases hk with ⟨h1, h2⟩ | ⟨h1, h2⟩
  · exact absurd (List.mem_of_mem_filter h1) h2
  · have hne : ¬((fun x => !(x == key)) k = true) :=
      fun hcontra => h2 (List.mem_filter.mpr ⟨h1, hcontra⟩)
    have hke : k = key := by
      by_contra hne2
      exact hne (by simp [hne2])
    rw [hke]
    exact h

/-- C1 (amended): every request runs entirely inside the caller's slice of
the system.  Formally, for every file/stats request by the user resolved
from the token: (i) other users' metadata records are untouched; (ii) the
response is computed from the caller's table partition alone; (iii) every
object key added to or removed from the bucket lies under `<userId>/`; and
(iv) the response reads only objects under `<userId>/` — with the one
exception forcing the hv hypothesis: the versions route on a record with no
s3Key sends ListObjectVersions with an absent Prefix and therefore reads the
whole bucket (see the counterexample). -/
theorem user_scoping (uid : String) (ctx : Ctx) (rq : FileReq) (st : St)
    (hwf : wfTable st.table = true)
    (hv : ∀ fid it, rq = FileReq.versions fid → ddbGet st.table uid fid = some it →
      it.s3Key.isSome = true) :
    othersOf (handleFile uid ctx rq st).2.table uid = othersOf st.table uid
    ∧ (handleFile uid ctx rq (restrictTable st uid)).1 = (handleFile uid ctx rq st).1
    ∧ bucketDeltaScoped uid st.bucket (handleFile uid ctx rq st).2.bucket
    ∧ (handleFile uid ctx rq (restrictBucket st uid)).1 = (handleFile uid ctx rq st).1 := by
  cases rq with
  | upload fo =>
    cases fo with
    | none => exact ⟨rfl, rfl, bucketDeltaScoped_refl uid st.bucket, rfl⟩
    | some file =>
      refine ⟨?_, ?_, ?_, ?_⟩
      · simp only [handleFile]
        rw [uploadRoute_table]
        cases hput : ctx.putErr with
        | some msg => rfl
        | none => exact othersOf_ddbPut st.table _ uid rfl
      · simp only [handleFile]
        cases hput : ctx.putErr <;> simp [uploadRoute, hput]
      · simp only [handleFile]
        have hbucket : (uploadRoute uid ctx (some file) st).2.bucket
            = (uid ++ "/" ++ ctx.multerId ++ "-" ++ file.originalname) :: st.bucket := by
          cases hput : ctx.putErr <;> simp [uploadRoute, hput]
        rw [hbucket]
        exact bucketDeltaScoped_cons uid _ st.bucket
          (uploadKey_scoped uid ctx.multerId file.originalname)
      · simp only [handleFile]
        cases hput : ctx.putErr <;> simp [uploadRoute, hput]
  | listFiles =>
    refine ⟨rfl, ?_, bucketDeltaScoped_refl uid st.bucket, rfl⟩
    simp [handleFile, listRoute, restrictTable, ddbQueryDesc_ownOf]
  | getOne fid =>
    refine ⟨?_, ?_, ?_, ?_⟩
    · simp only [handleFile]
      rw [getRoute_st]
    · simp only [handleFile, getRoute, restrictTable]
      rw [ddbGet_ownOf]
      cases hg : ddbGet st.table uid fid <;> rfl
    · simp only [handleFile]
      rw [getRoute_st]
      exact bucketDeltaScoped_refl uid st.bucket
    · simp only [handleFile, getRoute, restrictBucket]
      cases hg : ddbGet st.table uid fid <;> rfl
  | download fid =>
    refine ⟨?_, ?_, ?_, ?_⟩
    · simp only [handleFile]
      cases hg : ddbGet st.table uid fid with
      | none => simp [downloadRoute, hg]
      | some it =>
        cases hk : it.s3Key with
        | none => simp [downloadRoute, hg, hk]
        | some k =>
          simp only [downloadRoute, hg, hk, ddbUpdate]
          exact othersOf_ddbPut st.table (applyDownloadInc uid fid (some it)) uid
            (ddbGet_key st.table uid fid it hg).1
    · simp only [handleFile, downloadRoute, restrictTable]
      rw [ddbGet_ownOf]
      cases hg : ddbGet st.table uid fid with
      | none => rfl
      | some it => cases hk : it.s3Key <;> simp [hk]
    · simp only [handleFile]
      cases hg : ddbGet st.table uid fid with
      | none =>
        simp only [downloadRoute, hg]
        exact bucketDeltaScoped_refl uid st.bucket
      | some it =>
        cases hk : it.s3Key with
        | none =>
          simp only [downloadRoute, hg, hk]
          exact bucketDeltaScoped_refl uid st.bucket
        | some k =>
          simp only [downloadRoute, hg, hk]
          exact bucketDeltaScoped_refl uid st.bucket
    · simp only [handleFile, downloadRoute, restrictBucket]
      cases hg : ddbGet st.table uid fid with
      | none => rfl
      | some it => cases hk : it.s3Key <;> simp [hk]
  | versions fid =>
    refine ⟨?_, ?_, ?_, ?_⟩
    · simp only [handleFile]
      rw [versionsRoute_st]
    · simp only [handleFile, versionsRoute, restrictTable]
      rw [ddbGet_ownOf]
      cases hg : ddbGet st.table uid fid <;> rfl
    · simp only [handleFile]
      rw [versionsRoute_st]
      exact bucketDeltaScoped_refl uid st.bucket
    · simp only [handleFile]
      cases hg : ddbGet st.table uid fid with
      | none => simp [versionsRoute, restrictBucket, hg]
      | some it =>
        have hks := hv fid it rfl hg
        obtain ⟨k, hk⟩ := Option.isSome_iff_exists.mp hks
        have hok : strPfx (uid ++ "/") k = true := by
          have h1 := wfTable_key st.table it k hwf (ddbGet_mem st.table uid fid it hg) hk
          rw [(ddbGet_key st.table uid fid it hg).1] at h1
          exact h1
        have hfil : (st.bucket.filter (fun kk => strPfx (uid ++ "/") kk)).filter
            (fun kk => strPfx k kk) = st.bucket.filter (fun kk => strPfx k kk) :=
          filter_filter_keep _ _ (fun a ha => strPfx_trans _ _ _ hok ha) st.bucket
        simp [versionsRoute, restrictBucket, hg, hk, s3ListVersions, hfil]
  | delFile fid =>
    refine ⟨?_, ?_, ?_, ?_⟩
    · simp only [handleFile]
      cases hg : ddbGet st.table uid fid with
      | none => simp [deleteRoute, hg]
      | some it =>
        cases hk : it.s3Key with
        | none => simp [deleteRoute, hg, hk]
        | some k =>
          simp only [deleteRoute, hg, hk]
          exact othersOf_ddbDelete st.table uid fid
    · simp only [handleFile, deleteRoute, restrictTable]
      rw [ddbGet_ownOf]
      cases hg : ddbGet st.table uid fid with
      | none => rfl
      | some it => cases hk : it.s3Key <;> simp [hk]
    · simp only [handleFile]
      cases hg : ddbGet st.table uid fid with
      | none =>
        simp only [deleteRoute, hg]
        exact bucketDeltaScoped_refl uid st.bucket
      | some it =>
        cases hk : it.s3Key with
        | none =>
          simp only [deleteRoute, hg, hk]
          exact bucketDeltaScoped_refl uid st.bucket
        | some k =>
          simp only [deleteRoute, hg, hk]
          have hok : strPfx (uid ++ "/") k = true := by
            have h1 := wfTable_key st.table it k hwf (ddbGet_mem st.table uid fid it hg) hk
            rw [(ddbGet_key st.table uid fid it hg).1] at h1
            exact h1
          exact bucketDeltaScoped_delete uid k st.bucket hok
    · simp only [handleFile, deleteRoute, restrictBucket]
      cases hg : ddbGet st.table uid fid with
      | none => rfl
      | some it => cases hk : it.s3Key <;> simp [hk]
  | share fid expIn =>
    refine ⟨?_, ?_, ?_, ?_⟩
    · simp only [handleFile]
      cases hg : ddbGet st.table uid fid with
      | none => simp [shareRoute, hg]
      | some it =>
        cases hk : it.s3Key with
        | none => simp [shareRoute, hg, hk]
        | some k =>
          simp only [shareRoute, hg, hk, ddbUpdate]
          exact othersOf_ddbPut st.table
            (applyShare uid fid ctx.nowIso
              (ctx.isoOfMsPlus (expIn.getD 86400 * 1000)) (some it)) uid
            (ddbGet_key st.table uid fid it hg).1
    · simp only [handleFile, shareRoute, restrictTable]
      rw [ddbGet_ownOf]
      cases hg : ddbGet st.table uid fid with
      | none => rfl
      | some it => cases hk : it.s3Key <;> simp [hk]
    · simp only [handleFile]
      cases hg : ddbGet st.table uid fid with
      | none =>
        simp only [shareRoute, hg]
        exact bucketDeltaScoped_refl uid st.bucket
      | some it =>
        cases hk : it.s3Key with
        | none =>
          simp only [shareRoute, hg, hk]
          exact bucketDeltaScoped_refl uid st.bucket
        | some k =>
          simp only [shareRoute, hg, hk]
          exact bucketDeltaScoped_refl uid st.bucket
    · simp only [handleFile, shareRoute, restrictBucket]
      cases hg : ddbGet st.table uid fid with
      | none => rfl
      | some it => cases hk : it.s3Key <;> simp [hk]
  | unshare fid =>
    refine ⟨?_, rfl, ?_, rfl⟩
    · simp only [handleFile, unshareRoute, ddbUpdate]
      cases hg : ddbGet st.table uid fid with
      | none => exact othersOf_ddbPut st.table (applyUnshare uid fid none) uid rfl
      | some it =>
        exact othersOf_ddbPut st.table (applyUnshare uid fid (some it)) uid
          (ddbGet_key st.table uid fid it hg).1
    · exact bucketDeltaScoped_refl uid st.bucket
  | stats =>
    refine ⟨rfl, ?_, bucketDeltaScoped_refl uid st.bucket, rfl⟩
    simp [handleFile, statsRoute, restrictTable, ddbQueryAsc_ownOf]

/-- Extract the object keys listed in a versions response. -/
def versionKeysOf (r : Resp) : List String :=
  match bodyField r "versions" with
  | some (JVal.arr l) => l.filterMap (fun j => match j with
      | JVal.str s => some s
      | _ => none)
  | _ => []

def cex1St : St := ⟨[ghostItem "u1" "f1"], ["u2/secret.txt"]⟩

/-- Counterexample to C1 as stated: on a well-formed state holding another
user's object "u2/secret.txt", the versions route addressed at a record
without s3Key (created by the unshare upsert) sends ListObjectVersions with
no Prefix and returns the whole bucket — its response lists u2's object and
changes when other users' objects are removed, so not every object-store
operation is keyed by the caller's userId. -/
theorem user_scoping_cex :
    wfTable cex1St.table = true
    ∧ versionKeysOf (handleFile "u1" ctx0 (FileReq.versions "f1") cex1St).1 = ["u2/secret.txt"]
    ∧ strPfx ("u1" ++ "/") "u2/secret.txt" = false
    ∧ versionKeysOf (handleFile "u1" ctx0 (FileReq.versions "f1") (restrictBucket cex1St "u1")).1
        = []
    ∧ (handleFile "u1" ctx0 (FileReq.versions "f1") (restrictBucket cex1St "u1")).1
        ≠ (handleFile "u1" ctx0 (FileReq.versions "f1") cex1St).1 := by
  refine ⟨rfl, rfl, rfl, rfl, fun h => ?_⟩
  have h2 : ([] : List String) = ["u2/secret.txt"] :=
    congrArg versionKeysOf h
  exact List.noConfusion h2

/-- Witness for C1 at a concrete request on the empty state. -/
theorem user_scoping_witness :
    wfTable ((⟨[], []⟩ : St)).table = true
    ∧ othersOf (handleFile "u" ctx0 (FileReq.getOne "f") ⟨[], []⟩).2.table "u"
        = othersOf ((⟨[], []⟩ : St)).table "u"
    ∧ (handleFile "u" ctx0 (FileReq.getOne "f") (restrictTable ⟨[], []⟩ "u")).1
        = (handleFile "u" ctx0 (FileReq.getOne "f") ⟨[], []⟩).1 :=
  ⟨rfl,
    (user_scoping "u" ctx0 (FileReq.getOne "f") ⟨[], []⟩ rfl (fun fid it h => nomatch h)).1,
    (user_scoping "u" ctx0 (FileReq.getOne "f") ⟨[], []⟩ rfl (fun fid it h => nomatch h)).2.1⟩
